import Mathlib

/-!
Shallow embedding of the Wan 2.2 FastAPI service (`api.py`) and proofs of
interface-contract properties about it.

The repository's own code is the FastAPI handler module `api.py`; the model
library (`wan`) and its configuration tables (`WAN_CONFIGS`, `SIZE_CONFIGS`,
`MAX_AREA_CONFIGS`, `SUPPORTED_SIZES`) are external dependencies, so they are
parameters of the embedding (an `Env` record).  Every fallible external call
(model construction, the library `generate()` call, `save_video`, PIL image
decoding) and every nondeterministic source (uuid4, random seed) is an oracle
field of a `World` record.  Handlers return a response together with an
explicit trace of side effects (model constructions, `generate()` calls, file
writes and deletions) and thread the module-level model cache explicitly.

A central point of fidelity: in `api.py` the whole body of `generate_video`
sits inside `try: ... except Exception as e: raise HTTPException(500, ...)`.
In Python, `fastapi.HTTPException` is a subclass of `Exception`, so the
`HTTPException(status_code=400, ...)` raises inside the `try` block are
caught by that handler and re-raised as status 500.  The embedding models
exceptions as a sum of HTTP exceptions and plain exceptions and reproduces
this catch-all exactly.
-/

set_option autoImplicit false

namespace Wan22Api

/-- Python truth of `pat in s` for strings: `pat` occurs as a contiguous
substring of `s`.  Helper: list prefix test. -/
def listPrefixOf : List Char → List Char → Bool
  | [], _ => true
  | _ :: _, [] => false
  | a :: as, b :: bs => a == b && listPrefixOf as bs

/-- Helper for the substring test: `pat` is a prefix of some suffix. -/
def listOccursIn (pat : List Char) : List Char → Bool
  | [] => listPrefixOf pat []
  | b :: bs => listPrefixOf pat (b :: bs) || listOccursIn pat bs

/-- Python `pat in s` on strings (contiguous-substring membership). -/
def strOccursIn (pat s : String) : Bool :=
  listOccursIn pat.data s.data

/-- Kind of model selected by the substring dispatch used both in
`get_model` (lines 66/78/90) and in `generate_video` (lines 191/203/217):
first `"t2v" in task`, then `"ti2v" in task`, then `"i2v" in task`. -/
inductive ModelKind where
  | t2v
  | ti2v
  | i2v
deriving Repr, DecidableEq

/-- Dispatch on the task name by substring, in the source's branch order. -/
def taskKind (task : String) : Option ModelKind :=
  if strOccursIn "t2v" task then some ModelKind.t2v
  else if strOccursIn "ti2v" task then some ModelKind.ti2v
  else if strOccursIn "i2v" task then some ModelKind.i2v
  else none

/-- Fields of a `WAN_CONFIGS` entry that `api.py` reads.  `guide_scale` and
`shift` are floats in Python; the handler only copies them, so an exact
rational carrier is faithful. -/
structure WanCfg where
  sample_steps : Nat
  sample_guide_scale : Rat
  frame_num : Nat
  sample_shift : Rat
  sample_fps : Nat
deriving Repr, DecidableEq

/-- External configuration and environment of the service: the `wan.configs`
tables (association lists keyed by strings, as Python dicts), the
environment variables read at import time, and the filesystem/model-library
behavior that `get_model` consults. -/
structure Env where
  wanConfigs : List (String × WanCfg)
  sizeConfigs : List (String × Nat × Nat)
  maxAreaConfigs : List (String × Nat)
  supportedSizes : List (String × List String)
  modelType : String
  modelPath : String
  outputDir : String
  checkpointExists : String → Bool
  construct : ModelKind → String → Except String Nat

/-- Per-request oracles for the nondeterministic and fallible external calls
made by `generate_video`: `random.randint`, `uuid.uuid4`, PIL image decoding,
the library `generate()` call and `save_video`. -/
structure World where
  randomSeed : Nat
  freshUuid : String
  decodeImage : Nat → Except String Nat
  generateResult : Nat → Except String Nat
  saveResult : String → Except String Unit

/-- A parsed `POST /generate` multipart form, after FastAPI applies the
declared defaults (`task` defaults to `MODEL_TYPE`, `size` to `"1280*704"`,
`seed` to `-1`).  The optional image is the raw uploaded bytes. -/
structure Req where
  prompt : String
  image : Option Nat
  task : String
  size : String
  frame_num : Option Nat
  seed : Int
  sample_steps : Option Nat
  guide_scale : Option Rat
deriving Repr, DecidableEq

/-- Argument record of one library `generate()` call, as built by the three
branches of `generate_video`.  `size` is passed for t2v and ti2v only,
`max_area` for ti2v and i2v only; `img` is the keyword/positional image
argument (absent for t2v). -/
structure GenCall where
  model : Nat
  prompt : String
  img : Option Nat
  size : Option (Nat × Nat)
  max_area : Option Nat
  frame_num : Nat
  shift : Rat
  sample_solver : String
  sampling_steps : Nat
  guide_scale : Rat
  seed : Int
  offload_model : Bool
deriving Repr, DecidableEq

/-- Observable side effects of the handlers: constructing a model for a task,
invoking the library `generate()`, writing a file, deleting a file.  The
source never deletes a file; the constructor exists so that absence of
cleanup is a theorem rather than a modelling artifact. -/
inductive Effect where
  | construct (task : String)
  | genCall (c : GenCall)
  | write (path : String)
  | delete (path : String)
deriving Repr, DecidableEq

/-- Python exceptions as far as the handler distinguishes them: a
`fastapi.HTTPException` (status and detail) or any other exception carrying
its message. -/
inductive PyExc where
  | http (status : Nat) (detail : String)
  | other (msg : String)
deriving Repr, DecidableEq

/-- Python `str(e)`: starlette's `HTTPException.__str__` prints
`"{status_code}: {detail}"`; for other exceptions it is the message. -/
def strOfPyExc : PyExc → String
  | PyExc.http s d => toString s ++ ": " ++ d
  | PyExc.other m => m

/-- Decidable equality of `Except` results, needed for concrete evaluation
of handler outcomes. -/
instance instDecEqExcept {ε α : Type} [DecidableEq ε] [DecidableEq α] :
    DecidableEq (Except ε α) := fun x y =>
  match x, y with
  | Except.error a, Except.error b =>
    if h : a = b then Decidable.isTrue (by rw [h])
    else Decidable.isFalse (by intro hc; cases hc; exact h rfl)
  | Except.error _, Except.ok _ => Decidable.isFalse (by intro hc; cases hc)
  | Except.ok _, Except.error _ => Decidable.isFalse (by intro hc; cases hc)
  | Except.ok a, Except.ok b =>
    if h : a = b then Decidable.isTrue (by rw [h])
    else Decidable.isFalse (by intro hc; cases hc; exact h rfl)

/-- The in-process model cache `_model_cache`, a dict from task name to the
model handle. -/
abbrev Cache : Type := List (String × Nat)

/-- JSON values appearing in this API's responses. -/
inductive JVal where
  | s (v : String)
  | arr (v : List String)
deriving Repr, DecidableEq

/-- HTTP responses of the service: a `FileResponse` (path, media type,
download filename) or a JSON object with a status code. -/
inductive Resp where
  | fileResponse (path mediaType filename : String)
  | json (status : Nat) (body : List (String × JVal))
deriving Repr, DecidableEq

/-- Python `s.upper()` on the ASCII task names used here (uppercases each
character). -/
def strToUpper (s : String) : String := ⟨s.data.map Char.toUpper⟩

/-- Result of a `get_model` call: the cache afterwards, the effects
performed, and either the model handle or the raised exception's message
(`get_model` raises only `ValueError` / `FileNotFoundError` / construction
errors, never `HTTPException`). -/
structure GetModelOut where
  cache : Cache
  effects : List Effect
  result : Except String Nat
deriving Repr, DecidableEq

/-- Embedding of `get_model` (api.py lines 51-108).  On a cache hit it
returns the stored handle and performs nothing; on a miss it validates the
task, checks the checkpoint directory, constructs the model for the
substring-selected kind, and stores it in the cache. -/
def get_model (env : Env) (cache : Cache) (task : String) : GetModelOut :=
  match List.lookup task cache with
  | some m => ⟨cache, [], Except.ok m⟩
  | none =>
    if (List.lookup task env.wanConfigs).isNone then
      ⟨cache, [], Except.error ("Unsupported task: " ++ task)⟩
    else
      let checkpoint_dir := env.modelPath ++ "/Wan2.2-" ++ strToUpper task
      if env.checkpointExists checkpoint_dir = false then
        ⟨cache, [], Except.error ("Model checkpoint not found at " ++ checkpoint_dir)⟩
      else
        match taskKind task with
        | none => ⟨cache, [], Except.error ("Unsupported task type: " ++ task)⟩
        | some k =>
          match env.construct k task with
          | Except.error msg => ⟨cache, [], Except.error msg⟩
          | Except.ok m => ⟨(task, m) :: cache, [Effect.construct task], Except.ok m⟩

/-- Outcome of the `try`-block body of `generate_video`: cache afterwards,
effect trace, and either the returned `FileResponse` or the exception that
escaped the body (to be caught by `except Exception`). -/
structure BodyOut where
  cache : Cache
  effects : List Effect
  result : Except PyExc Resp
deriving Repr, DecidableEq

/-- The `generate()`-dispatch part of the body (api.py lines 191-233), after
the model is obtained: builds the per-kind argument record, performs the
call, and returns the video handle.  `fn`, `ss`, `gs`, `sd` are the resolved
`frame_num`, `sample_steps`, `guide_scale`, `seed`. -/
def doCall (w : World) (c : GenCall) : List Effect × Except PyExc Nat :=
  ([Effect.genCall c],
    match w.generateResult c.model with
    | Except.ok v => Except.ok v
    | Except.error msg => Except.error (PyExc.other msg))

def runGenerate (env : Env) (w : World) (m : Nat) (cfg : WanCfg) (r : Req)
    (img : Option Nat) (fn ss : Nat) (gs : Rat) (sd : Int) :
    List Effect × Except PyExc Nat :=
  match taskKind r.task with
  | some ModelKind.t2v =>
    match List.lookup r.size env.sizeConfigs with
    | none => ([], Except.error (PyExc.other ("\x27" ++ r.size ++ "\x27")))
    | some sz =>
      doCall w
        { model := m, prompt := r.prompt, img := none, size := some sz,
          max_area := none, frame_num := fn, shift := cfg.sample_shift,
          sample_solver := "unipc", sampling_steps := ss, guide_scale := gs,
          seed := sd, offload_model := true }
  | some ModelKind.ti2v =>
    match List.lookup r.size env.sizeConfigs with
    | none => ([], Except.error (PyExc.other ("\x27" ++ r.size ++ "\x27")))
    | some sz =>
      match List.lookup r.size env.maxAreaConfigs with
      | none => ([], Except.error (PyExc.other ("\x27" ++ r.size ++ "\x27")))
      | some ma =>
        doCall w
        { model := m, prompt := r.prompt, img := img, size := some sz,
          max_area := some ma, frame_num := fn, shift := cfg.sample_shift,
          sample_solver := "unipc", sampling_steps := ss, guide_scale := gs,
          seed := sd, offload_model := true }
  | some ModelKind.i2v =>
    match img with
    | none => ([], Except.error (PyExc.http 400 "Image is required for i2v task"))
    | some im =>
      match List.lookup r.size env.maxAreaConfigs with
      | none => ([], Except.error (PyExc.other ("\x27" ++ r.size ++ "\x27")))
      | some ma =>
        doCall w
          { model := m, prompt := r.prompt, img := some im, size := none,
            max_area := some ma, frame_num := fn, shift := cfg.sample_shift,
            sample_solver := "unipc", sampling_steps := ss, guide_scale := gs,
            seed := sd, offload_model := true }
  | none => ([], Except.error (PyExc.http 400 ("Unsupported task type: " ++ r.task)))

/-- The saving-and-response tail of the body (api.py lines 236-259): pick a
fresh uuid, save under `OUTPUT_DIR/{uuid}.mp4`, return the `FileResponse`
(the download filename is `wan_video_{uuid}.mp4`, the served path is the
saved file). -/
def saveAndRespond (env : Env) (w : World) : List Effect × Except PyExc Resp :=
  match w.saveResult (env.outputDir ++ "/" ++ w.freshUuid ++ ".mp4") with
  | Except.error msg => ([], Except.error (PyExc.other msg))
  | Except.ok _ =>
    ([Effect.write (env.outputDir ++ "/" ++ w.freshUuid ++ ".mp4")],
      Except.ok (Resp.fileResponse (env.outputDir ++ "/" ++ w.freshUuid ++ ".mp4")
        "video/mp4" ("wan_video_" ++ w.freshUuid ++ ".mp4")))

/-- Image handling of the body (api.py lines 179-183): no upload means
`img = None`; an upload is read and decoded, and decoding may raise. -/
def resolveImg (w : World) (r : Req) : Except String (Option Nat) :=
  match r.image with
  | none => Except.ok none
  | some bytes =>
    match w.decodeImage bytes with
    | Except.error msg => Except.error msg
    | Except.ok im => Except.ok (some im)

/-- Embedding of the `try`-block body of `generate_video` (api.py lines
155-259): validation, default resolution from the config, seed resolution,
image decoding, `get_model`, dispatch to `generate()`, save, response. -/
def generateBody (env : Env) (w : World) (cache : Cache) (r : Req) : BodyOut :=
  match List.lookup r.task env.wanConfigs with
  | none => ⟨cache, [], Except.error (PyExc.http 400 ("Unsupported task: " ++ r.task))⟩
  | some cfg =>
    if (List.lookup r.size env.sizeConfigs).isNone then
      ⟨cache, [], Except.error (PyExc.http 400 ("Unsupported size: " ++ r.size))⟩
    else
      match resolveImg w r with
      | Except.error msg => ⟨cache, [], Except.error (PyExc.other msg)⟩
      | Except.ok img =>
        match get_model env cache r.task with
        | ⟨cache1, effs1, Except.error msg⟩ =>
          ⟨cache1, effs1, Except.error (PyExc.other msg)⟩
        | ⟨cache1, effs1, Except.ok m⟩ =>
          match runGenerate env w m cfg r img
              (r.frame_num.getD cfg.frame_num)
              (r.sample_steps.getD cfg.sample_steps)
              (r.guide_scale.getD cfg.sample_guide_scale)
              (if r.seed < 0 then Int.ofNat w.randomSeed else r.seed) with
          | (effs2, Except.error e) => ⟨cache1, effs1 ++ effs2, Except.error e⟩
          | (effs2, Except.ok _video) =>
            match saveAndRespond env w with
            | (effs3, res) => ⟨cache1, effs1 ++ effs2 ++ effs3, res⟩

/-- Full `generate_video` handler as observed over HTTP: the catch-all
`except Exception as e: raise HTTPException(500, "Video generation failed: "
+ str(e))` (api.py lines 261-263) catches EVERY exception escaping the body,
including the `HTTPException(400)` validation raises, and FastAPI renders
the re-raised exception as a status-500 JSON error. -/
structure HandlerOut where
  cache : Cache
  effects : List Effect
  response : Resp
deriving Repr, DecidableEq

/-- The HTTP-level behavior of `POST /generate`. -/
def generate_video (env : Env) (w : World) (cache : Cache) (r : Req) : HandlerOut :=
  match generateBody env w cache r with
  | ⟨c, effs, Except.ok resp⟩ => ⟨c, effs, resp⟩
  | ⟨c, effs, Except.error e⟩ =>
    ⟨c, effs,
      Resp.json 500 [("detail", JVal.s ("Video generation failed: " ++ strOfPyExc e))]⟩

/-- Embedding of `GET /` (api.py lines 111-119). -/
def root_endpoint (env : Env) : Resp :=
  Resp.json 200
    [("status", JVal.s "healthy"),
     ("message", JVal.s "Wan 2.2 Video Generation API"),
     ("model_type", JVal.s env.modelType),
     ("available_tasks", JVal.arr (env.wanConfigs.map Prod.fst))]

/-- Embedding of `GET /health` (api.py lines 122-125). -/
def health_check : Resp :=
  Resp.json 200 [("status", JVal.s "healthy")]

/-- Embedding of `GET /tasks` (api.py lines 266-272). -/
def list_tasks (env : Env) : Resp :=
  Resp.json 200
    [("available_tasks", JVal.arr (env.wanConfigs.map Prod.fst)),
     ("current_task", JVal.s env.modelType)]

/-- Embedding of `GET /sizes/{task}` (api.py lines 275-286).  Its
`HTTPException(400)` is NOT inside any `try`, so it reaches FastAPI and
really is a 400. -/
def list_sizes (env : Env) (task : String) : Resp :=
  match List.lookup task env.supportedSizes with
  | none => Resp.json 400 [("detail", JVal.s ("Unknown task: " ++ task))]
  | some sizes =>
    Resp.json 200 [("task", JVal.s task), ("supported_sizes", JVal.arr sizes)]

/-- A sample `ti2v-5B` configuration entry, used for concrete evaluation. -/
def cfgTi2v : WanCfg :=
  { sample_steps := 50, sample_guide_scale := 5, frame_num := 121,
    sample_shift := 5, sample_fps := 24 }

/-- A sample `t2v-A14B` configuration entry, used for concrete evaluation. -/
def cfgT2v : WanCfg :=
  { sample_steps := 40, sample_guide_scale := 4, frame_num := 81,
    sample_shift := 12, sample_fps := 16 }

/-- A sample `i2v-A14B` configuration entry, used for concrete evaluation. -/
def cfgI2v : WanCfg :=
  { sample_steps := 40, sample_guide_scale := 5, frame_num := 81,
    sample_shift := 5, sample_fps := 16 }

/-- A concrete environment with the three Wan 2.2 tasks, every checkpoint
present and model construction succeeding. -/
def envEx : Env :=
  { wanConfigs := [("t2v-A14B", cfgT2v), ("i2v-A14B", cfgI2v), ("ti2v-5B", cfgTi2v)],
    sizeConfigs := [("1280*704", (1280, 704)), ("480*832", (480, 832))],
    maxAreaConfigs := [("1280*704", 901120), ("480*832", 399360)],
    supportedSizes :=
      [("t2v-A14B", ["480*832", "832*480"]),
       ("i2v-A14B", ["480*832", "832*480"]),
       ("ti2v-5B", ["1280*704", "704*1280"])],
    modelType := "ti2v-5B",
    modelPath := "./models",
    outputDir := "/tmp/outputs",
    checkpointExists := fun _ => true,
    construct := fun _ t => Except.ok t.length }

/-- A concrete environment in which no checkpoint directory exists, so model
construction is never reached. -/
def envNoCkpt : Env :=
  { envEx with checkpointExists := fun _ => false }

/-- A concrete world where every external call succeeds. -/
def worldEx : World :=
  { randomSeed := 42, freshUuid := "a1b2c3d4",
    decodeImage := fun b => Except.ok b,
    generateResult := fun _ => Except.ok 7,
    saveResult := fun _ => Except.ok () }

/-- A concrete request using defaults for everything optional. -/
def reqEx : Req :=
  { prompt := "a cat", image := none, task := "ti2v-5B", size := "1280*704",
    frame_num := none, seed := -1, sample_steps := none, guide_scale := none }

/-- A concrete request that supplies `sample_steps` and `frame_num`
explicitly, leaves `guide_scale` to the config default, and uses a
non-negative seed. -/
def reqCustom : Req :=
  { prompt := "a dog", image := none, task := "ti2v-5B", size := "1280*704",
    frame_num := some 33, seed := 5, sample_steps := some 7, guide_scale := none }

/-- The `generate()` call that `reqCustom` produces against `envEx` and
`worldEx`. -/
def cCustom : GenCall :=
  { model := 7, prompt := "a dog", img := none, size := some (1280, 704),
    max_area := some 901120, frame_num := 33, shift := 5, sample_solver := "unipc",
    sampling_steps := 7, guide_scale := 5, seed := 5, offload_model := true }

/-- Invariant of the model cache: every stored entry is keyed by a task that
is in `WAN_CONFIGS`, of a recognized kind, whose construction succeeded and
produced exactly the stored handle. -/
def cacheInv (env : Env) (cache : Cache) : Prop :=
  ∀ p ∈ cache,
    (List.lookup p.1 env.wanConfigs).isSome = true
    ∧ ∃ k, taskKind p.1 = some k ∧ env.construct k p.1 = Except.ok p.2

end Wan22Api

namespace Wan22Api

theorem listPrefixOf_refl (l : List Char) : listPrefixOf l l = true := by
  induction l with
  | nil => rfl
  | cons a as ih => simp [listPrefixOf, ih]

theorem listOccursIn_self (l : List Char) : listOccursIn l l = true := by
  cases l with
  | nil => rfl
  | cons b bs => simp [listOccursIn, listPrefixOf_refl]

theorem listOccursIn_append_left (pat xs l : List Char)
    (h : listOccursIn pat l = true) : listOccursIn pat (xs ++ l) = true := by
  induction xs with
  | nil => simpa using h
  | cons x xs ih => simp [listOccursIn, ih]

theorem strOccursIn_append_right (p m : String) :
    strOccursIn m (p ++ m) = true := by
  unfold strOccursIn
  rw [String.data_append]
  exact listOccursIn_append_left m.data p.data m.data (listOccursIn_self m.data)

theorem generate_video_effects_eq (env : Env) (w : World) (cache : Cache) (r : Req) :
    (generate_video env w cache r).effects = (generateBody env w cache r).effects := by
  unfold generate_video
  split <;> simp_all

theorem generate_video_error (env : Env) (w : World) (cache : Cache) (r : Req)
    (e : PyExc) (h : (generateBody env w cache r).result = Except.error e) :
    (generate_video env w cache r).response
      = Resp.json 500 [("detail", JVal.s ("Video generation failed: " ++ strOfPyExc e))] := by
  unfold generate_video
  split
  · simp_all
  · simp_all

/-- C1: the claim says a `POST /generate` whose task is not a key of
`WAN_CONFIGS` gets HTTP 400, not 500.  On the code this is false: the
`HTTPException(status_code=400)` raised at api.py line 158 lies inside the
`try` block, is caught by `except Exception` (line 261, `HTTPException`
subclasses `Exception`), and is re-raised as status 500.  Concretely, a
request with task `"nope"` observes status 500 with the stringified 400
exception embedded in the detail. -/
theorem unknown_task_observed_500 :
    (generate_video envEx worldEx [] { reqEx with task := "nope" }).response
      = Resp.json 500
          [("detail", JVal.s "Video generation failed: 400: Unsupported task: nope")]
    ∧ (generate_video envEx worldEx [] { reqEx with size := "9*9" }).response
      = Resp.json 500
          [("detail", JVal.s "Video generation failed: 400: Unsupported size: 9*9")] := by
  exact ⟨rfl, rfl⟩

/-- C2: the claim says an i2v request with no image gets HTTP 400, not 500.
On the code this is false for the same reason as C1: the
`HTTPException(400, "Image is required for i2v task")` raised at api.py
line 219 is inside the `try` block and the catch-all converts it to 500. -/
theorem missing_image_observed_500 :
    (generate_video envEx worldEx []
        { reqEx with task := "i2v-A14B", size := "480*832" }).response
      = Resp.json 500
          [("detail", JVal.s "Video generation failed: 400: Image is required for i2v task")] := by
  rfl

/-- C3: whenever the body of `generate_video` terminates with a non-HTTP
exception — which is how model loading, the library `generate()` call,
image decoding and `save_video` fail — the HTTP response has status 500 and
its JSON error detail contains the exception's message. -/
theorem generation_failure_500_with_message (env : Env) (w : World)
    (cache : Cache) (r : Req) (msg : String)
    (h : (generateBody env w cache r).result = Except.error (PyExc.other msg)) :
    (generate_video env w cache r).response
        = Resp.json 500 [("detail", JVal.s ("Video generation failed: " ++ msg))]
      ∧ strOccursIn msg ("Video generation failed: " ++ msg) = true := by
  refine ⟨?_, strOccursIn_append_right "Video generation failed: " msg⟩
  exact generate_video_error env w cache r (PyExc.other msg) h

/-- Witness for C3: a request against an environment whose checkpoint
directory is missing, so model loading raises `FileNotFoundError`. -/
theorem generation_failure_500_with_message_witness :
    (generate_video envNoCkpt worldEx [] reqEx).response
        = Resp.json 500
            [("detail",
              JVal.s ("Video generation failed: "
                ++ "Model checkpoint not found at ./models/Wan2.2-TI2V-5B"))]
      ∧ strOccursIn "Model checkpoint not found at ./models/Wan2.2-TI2V-5B"
          ("Video generation failed: "
            ++ "Model checkpoint not found at ./models/Wan2.2-TI2V-5B") = true :=
  generation_failure_500_with_message envNoCkpt worldEx [] reqEx
    "Model checkpoint not found at ./models/Wan2.2-TI2V-5B" (by rfl)

/-- C4: `GET /sizes/{task}` returns a 400 JSON error when the task is not a
key of `SUPPORTED_SIZES` (this `HTTPException` is outside any `try`, so it
really is a 400), and otherwise a 200 JSON body with exactly the fields
`task` (echoing the request) and `supported_sizes` (the configured list). -/
theorem list_sizes_contract (env : Env) (task : String) :
    (List.lookup task env.supportedSizes = none →
        list_sizes env task = Resp.json 400 [("detail", JVal.s ("Unknown task: " ++ task))])
    ∧ ∀ sizes, List.lookup task env.supportedSizes = some sizes →
        list_sizes env task
          = Resp.json 200 [("task", JVal.s task), ("supported_sizes", JVal.arr sizes)] := by
  constructor
  · intro h
    simp [list_sizes, h]
  · intro sizes h
    simp [list_sizes, h]

/-- Witness for C4: both arms evaluated at concrete tasks. -/
theorem list_sizes_contract_witness :
    list_sizes envEx "zzz" = Resp.json 400 [("detail", JVal.s ("Unknown task: " ++ "zzz"))]
    ∧ list_sizes envEx "ti2v-5B"
        = Resp.json 200
            [("task", JVal.s "ti2v-5B"),
             ("supported_sizes", JVal.arr ["1280*704", "704*1280"])] :=
  ⟨(list_sizes_contract envEx "zzz").1 (by rfl),
   (list_sizes_contract envEx "ti2v-5B").2 ["1280*704", "704*1280"] (by rfl)⟩

/-- C6: the health and metadata endpoints always answer 200 with
fixed-shape JSON: `/health` is exactly `{"status": "healthy"}`; `/` has
exactly the keys `status`, `message`, `model_type`, `available_tasks`;
`/tasks` has exactly the keys `available_tasks`, `current_task`; and
`available_tasks` in both is the key list of `WAN_CONFIGS`. -/
theorem metadata_fixed_shape (env : Env) :
    health_check = Resp.json 200 [("status", JVal.s "healthy")]
    ∧ (∃ body, root_endpoint env = Resp.json 200 body
        ∧ body.map Prod.fst = ["status", "message", "model_type", "available_tasks"]
        ∧ List.lookup "available_tasks" body
            = some (JVal.arr (env.wanConfigs.map Prod.fst)))
    ∧ (∃ body, list_tasks env = Resp.json 200 body
        ∧ body.map Prod.fst = ["available_tasks", "current_task"]
        ∧ List.lookup "available_tasks" body
            = some (JVal.arr (env.wanConfigs.map Prod.fst))) := by
  refine ⟨rfl, ⟨_, rfl, rfl, ?_⟩, ⟨_, rfl, rfl, ?_⟩⟩ <;> rfl

theorem get_model_spec (env : Env) (cache : Cache) (task : String) :
    (∃ m, List.lookup task cache = some m
        ∧ get_model env cache task = ⟨cache, [], Except.ok m⟩)
    ∨ (∃ msg, get_model env cache task = ⟨cache, [], Except.error msg⟩)
    ∨ (∃ m k, List.lookup task cache = none
        ∧ (List.lookup task env.wanConfigs).isSome = true
        ∧ taskKind task = some k
        ∧ env.construct k task = Except.ok m
        ∧ get_model env cache task
            = ⟨(task, m) :: cache, [Effect.construct task], Except.ok m⟩) := by
  unfold get_model
  cases hL : List.lookup task cache with
  | some m => exact Or.inl ⟨m, rfl, rfl⟩
  | none =>
    cases hW : List.lookup task env.wanConfigs with
    | none => exact Or.inr (Or.inl ⟨"Unsupported task: " ++ task, by simp⟩)
    | some cfg =>
      simp only [Option.isNone_some, Bool.false_eq_true, if_false]
      cases hC : env.checkpointExists (env.modelPath ++ "/Wan2.2-" ++ strToUpper task) with
      | false =>
        exact Or.inr (Or.inl
          ⟨"Model checkpoint not found at " ++ (env.modelPath ++ "/Wan2.2-" ++ strToUpper task),
           by simp⟩)
      | true =>
        simp only [Bool.true_eq_false, if_false]
        cases hK : taskKind task with
        | none => exact Or.inr (Or.inl ⟨"Unsupported task type: " ++ task, rfl⟩)
        | some k =>
          dsimp only
          cases hE : env.construct k task with
          | error msg => exact Or.inr (Or.inl ⟨msg, rfl⟩)
          | ok m => exact Or.inr (Or.inr ⟨m, k, by simp, by simp, by simp, hE, rfl⟩)

/-- C5: `get_model` is lazy and caches per task.  If the cache already holds
an entry for the task, the call returns that identical handle, leaves the
cache unchanged and performs no construction.  If the cache has no entry
and the call succeeds with handle `m`, it has stored `(task, m)` in the
cache after performing exactly one construction, and the next call with the
same task returns the identical handle `m` with no further construction. -/
theorem get_model_lazy_cache (env : Env) (cache : Cache) (task : String) :
    (∀ m, List.lookup task cache = some m →
        get_model env cache task = ⟨cache, [], Except.ok m⟩)
    ∧ (∀ m, List.lookup task cache = none →
        (get_model env cache task).result = Except.ok m →
          get_model env cache task
              = ⟨(task, m) :: cache, [Effect.construct task], Except.ok m⟩
          ∧ get_model env ((task, m) :: cache) task
              = ⟨(task, m) :: cache, [], Except.ok m⟩) := by
  constructor
  · intro m hm
    simp [get_model, hm]
  · intro m hnone hok
    rcases get_model_spec env cache task with ⟨m', hm', _⟩ | ⟨msg, hmsg⟩ | ⟨m', k, _, _, _, _, heq⟩
    · rw [hnone] at hm'
      cases hm'
    · rw [hmsg] at hok
      cases hok
    · rw [heq] at hok
      cases hok
      refine ⟨heq, ?_⟩
      simp [get_model, List.lookup]

/-- Witness for C5: a cached call returns the stored handle untouched, and
a first call stores the constructed handle. -/
theorem get_model_lazy_cache_witness :
    get_model envEx [("ti2v-5B", 9)] "ti2v-5B" = ⟨[("ti2v-5B", 9)], [], Except.ok 9⟩
    ∧ (get_model envEx [] "ti2v-5B"
          = ⟨[("ti2v-5B", 7)], [Effect.construct "ti2v-5B"], Except.ok 7⟩
        ∧ get_model envEx [("ti2v-5B", 7)] "ti2v-5B"
          = ⟨[("ti2v-5B", 7)], [], Except.ok 7⟩) :=
  ⟨(get_model_lazy_cache envEx [("ti2v-5B", 9)] "ti2v-5B").1 9 (by rfl),
   (get_model_lazy_cache envEx [] "ti2v-5B").2 7 (by rfl) (by rfl)⟩

/-- C9: if `get_model` raises, the model cache is unchanged (the dict is
only assigned after a successful construction), and consequently the cache
invariant — every stored key is a `WAN_CONFIGS` task of recognized kind
whose construction succeeded with exactly the stored handle — is preserved
by every call. -/
theorem get_model_error_cache_invariant (env : Env) (cache : Cache) (task : String) :
    (∀ msg, (get_model env cache task).result = Except.error msg →
        (get_model env cache task).cache = cache)
    ∧ (cacheInv env cache → cacheInv env (get_model env cache task).cache) := by
  rcases get_model_spec env cache task with ⟨m, _, heq⟩ | ⟨msg, heq⟩ |
    ⟨m, k, _, hW, hK, hE, heq⟩
  · rw [heq]
    exact ⟨fun msg h => (nomatch h), fun h => h⟩
  · rw [heq]
    exact ⟨fun _ _ => rfl, fun h => h⟩
  · rw [heq]
    refine ⟨fun msg h => (nomatch h), fun h => ?_⟩
    intro p hp
    rcases List.mem_cons.mp hp with hp1 | hp2
    · subst hp1
      exact ⟨hW, k, hK, hE⟩
    · exact h p hp2

/-- Witness for C9: a failing call (missing checkpoint) leaves the empty
cache empty, and the invariant holds for the cache a successful call
produces. -/
theorem get_model_error_cache_invariant_witness :
    (get_model envNoCkpt [] "ti2v-5B").cache = []
    ∧ cacheInv envNoCkpt (get_model envNoCkpt [] "ti2v-5B").cache :=
  ⟨(get_model_error_cache_invariant envNoCkpt [] "ti2v-5B").1
      "Model checkpoint not found at ./models/Wan2.2-TI2V-5B" (by rfl),
   (get_model_error_cache_invariant envNoCkpt [] "ti2v-5B").2 (by intro p hp; cases hp)⟩

theorem get_model_effects_sub (env : Env) (cache : Cache) (task : String) :
    (get_model env cache task).effects = []
    ∨ (get_model env cache task).effects = [Effect.construct task] := by
  rcases get_model_spec env cache task with ⟨m, _, heq⟩ | ⟨msg, heq⟩ |
    ⟨m, k, _, _, _, _, heq⟩ <;> rw [heq]
  · exact Or.inl rfl
  · exact Or.inl rfl
  · exact Or.inr rfl

theorem mem_get_model_effects (env : Env) (cache : Cache) (task : String)
    (e : Effect) (h : e ∈ (get_model env cache task).effects) :
    e = Effect.construct task := by
  rcases get_model_effects_sub env cache task with he | he <;> rw [he] at h
  · cases h
  · simpa using h

theorem doCall_result_not_http (w : World) (c : GenCall) (s : Nat) (d : String) :
    (doCall w c).2 ≠ Except.error (PyExc.http s d) := by
  unfold doCall
  cases w.generateResult c.model <;> simp

theorem runGenerate_effects_spec (env : Env) (w : World) (m : Nat) (cfg : WanCfg)
    (r : Req) (img : Option Nat) (fn ss : Nat) (gs : Rat) (sd : Int) :
    (runGenerate env w m cfg r img fn ss gs sd).1 = []
    ∨ ∃ c, (runGenerate env w m cfg r img fn ss gs sd).1 = [Effect.genCall c]
        ∧ c.sampling_steps = ss ∧ c.guide_scale = gs ∧ c.frame_num = fn
        ∧ c.model = m := by
  unfold runGenerate
  cases taskKind r.task with
  | none => exact Or.inl rfl
  | some k =>
    cases k with
    | t2v =>
      cases List.lookup r.size env.sizeConfigs with
      | none => exact Or.inl rfl
      | some sz => exact Or.inr ⟨_, rfl, rfl, rfl, rfl, rfl⟩
    | ti2v =>
      cases List.lookup r.size env.sizeConfigs with
      | none => exact Or.inl rfl
      | some sz =>
        cases List.lookup r.size env.maxAreaConfigs with
        | none => exact Or.inl rfl
        | some ma => exact Or.inr ⟨_, rfl, rfl, rfl, rfl, rfl⟩
    | i2v =>
      cases img with
      | none => exact Or.inl rfl
      | some im =>
        cases List.lookup r.size env.maxAreaConfigs with
        | none => exact Or.inl rfl
        | some ma => exact Or.inr ⟨_, rfl, rfl, rfl, rfl, rfl⟩

theorem mem_runGenerate_effects (env : Env) (w : World) (m : Nat) (cfg : WanCfg)
    (r : Req) (img : Option Nat) (fn ss : Nat) (gs : Rat) (sd : Int) (e : Effect)
    (h : e ∈ (runGenerate env w m cfg r img fn ss gs sd).1) :
    ∃ c, e = Effect.genCall c ∧ c.sampling_steps = ss ∧ c.guide_scale = gs
      ∧ c.frame_num = fn ∧ c.model = m := by
  rcases runGenerate_effects_spec env w m cfg r img fn ss gs sd with he |
    ⟨c, he, h1, h2, h3, h4⟩ <;> rw [he] at h
  · cases h
  · exact ⟨c, by simpa using h, h1, h2, h3, h4⟩

theorem runGenerate_ti2v_call (env : Env) (w : World) (m : Nat) (cfg : WanCfg)
    (r : Req) (img : Option Nat) (fn ss : Nat) (gs : Rat) (sd : Int)
    (sz : Nat × Nat) (ma : Nat)
    (hk : taskKind r.task = some ModelKind.ti2v)
    (hsz : List.lookup r.size env.sizeConfigs = some sz)
    (hma : List.lookup r.size env.maxAreaConfigs = some ma) :
    (runGenerate env w m cfg r img fn ss gs sd).1
        = [Effect.genCall
            { model := m, prompt := r.prompt, img := img, size := some sz,
              max_area := some ma, frame_num := fn, shift := cfg.sample_shift,
              sample_solver := "unipc", sampling_steps := ss, guide_scale := gs,
              seed := sd, offload_model := true }]
    ∧ ∀ s d, (runGenerate env w m cfg r img fn ss gs sd).2
        ≠ Except.error (PyExc.http s d) := by
  unfold runGenerate
  rw [hk, hsz, hma]
  refine ⟨rfl, ?_⟩
  intro s d
  exact doCall_result_not_http w _ s d

theorem saveAndRespond_spec (env : Env) (w : World) :
    saveAndRespond env w
        = ([Effect.write (env.outputDir ++ "/" ++ w.freshUuid ++ ".mp4")],
           Except.ok (Resp.fileResponse (env.outputDir ++ "/" ++ w.freshUuid ++ ".mp4")
             "video/mp4" ("wan_video_" ++ w.freshUuid ++ ".mp4")))
    ∨ ∃ msg, saveAndRespond env w = ([], Except.error (PyExc.other msg)) := by
  unfold saveAndRespond
  cases w.saveResult (env.outputDir ++ "/" ++ w.freshUuid ++ ".mp4") with
  | error msg => exact Or.inr ⟨msg, rfl⟩
  | ok u => exact Or.inl rfl

theorem generateBody_outcome (env : Env) (w : World) (cache : Cache) (r : Req) :
    (∃ e, (generateBody env w cache r).result = Except.error e)
    ∨ ((generateBody env w cache r).result
          = Except.ok (Resp.fileResponse (env.outputDir ++ "/" ++ w.freshUuid ++ ".mp4")
              "video/mp4" ("wan_video_" ++ w.freshUuid ++ ".mp4"))
        ∧ Effect.write (env.outputDir ++ "/" ++ w.freshUuid ++ ".mp4")
            ∈ (generateBody env w cache r).effects) := by
  unfold generateBody
  cases List.lookup r.task env.wanConfigs with
  | none => exact Or.inl ⟨_, rfl⟩
  | some cfg =>
    dsimp only
    by_cases hsz : (List.lookup r.size env.sizeConfigs).isNone = true
    · rw [if_pos hsz]
      exact Or.inl ⟨_, rfl⟩
    · rw [if_neg hsz]
      cases resolveImg w r with
      | error msg => exact Or.inl ⟨_, rfl⟩
      | ok img =>
        cases get_model env cache r.task with
        | mk cache1 effs1 res =>
          cases res with
          | error msg => exact Or.inl ⟨_, rfl⟩
          | ok m =>
            dsimp only
            cases runGenerate env w m cfg r img
                (r.frame_num.getD cfg.frame_num)
                (r.sample_steps.getD cfg.sample_steps)
                (r.guide_scale.getD cfg.sample_guide_scale)
                (if r.seed < 0 then Int.ofNat w.randomSeed else r.seed) with
            | mk effs2 res2 =>
              cases res2 with
              | error e => exact Or.inl ⟨e, rfl⟩
              | ok v =>
                rcases saveAndRespond_spec env w with hS | ⟨msg, hS⟩ <;> rw [hS]
                · exact Or.inr ⟨rfl, by simp⟩
                · exact Or.inl ⟨_, rfl⟩

theorem mem_generateBody_effects (env : Env) (w : World) (cache : Cache) (r : Req)
    (e : Effect) (h : e ∈ (generateBody env w cache r).effects) :
    e = Effect.construct r.task
    ∨ (∃ c, e = Effect.genCall c)
    ∨ e = Effect.write (env.outputDir ++ "/" ++ w.freshUuid ++ ".mp4") := by
  unfold generateBody at h
  cases hT : List.lookup r.task env.wanConfigs with
  | none =>
    rw [hT] at h
    cases h
  | some cfg =>
    rw [hT] at h
    dsimp only at h
    by_cases hsz : (List.lookup r.size env.sizeConfigs).isNone = true
    · rw [if_pos hsz] at h
      cases h
    · rw [if_neg hsz] at h
      cases hI : resolveImg w r with
      | error msg =>
        rw [hI] at h
        cases h
      | ok img =>
        rw [hI] at h
        cases hg : get_model env cache r.task with
        | mk cache1 effs1 res =>
          rw [hg] at h
          cases res with
          | error msg =>
            dsimp only at h
            exact Or.inl ((by rw [hg]; exact h : e ∈ (get_model env cache r.task).effects)
              |> mem_get_model_effects env cache r.task e)
          | ok m =>
            dsimp only at h
            cases hR : runGenerate env w m cfg r img
                (r.frame_num.getD cfg.frame_num)
                (r.sample_steps.getD cfg.sample_steps)
                (r.guide_scale.getD cfg.sample_guide_scale)
                (if r.seed < 0 then Int.ofNat w.randomSeed else r.seed) with
            | mk effs2 res2 =>
              rw [hR] at h
              cases res2 with
              | error e2 =>
                dsimp only at h
                rcases List.mem_append.mp h with h1 | h2
                · exact Or.inl (mem_get_model_effects env cache r.task e (by rw [hg]; exact h1))
                · rcases mem_runGenerate_effects env w m cfg r img _ _ _ _ e
                      (by rw [hR]; exact h2) with ⟨c, hc, _⟩
                  exact Or.inr (Or.inl ⟨c, hc⟩)
              | ok v =>
                rcases saveAndRespond_spec env w with hS | ⟨msg, hS⟩ <;> rw [hS] at h <;>
                  dsimp only at h
                · rcases List.mem_append.mp h with h12 | h3
                  · rcases List.mem_append.mp h12 with h1 | h2
                    · exact Or.inl (mem_get_model_effects env cache r.task e
                        (by rw [hg]; exact h1))
                    · rcases mem_runGenerate_effects env w m cfg r img _ _ _ _ e
                          (by rw [hR]; exact h2) with ⟨c, hc, _⟩
                      exact Or.inr (Or.inl ⟨c, hc⟩)
                  · exact Or.inr (Or.inr (by simpa using h3))
                · rw [List.append_nil] at h
                  rcases List.mem_append.mp h with h1 | h2
                  · exact Or.inl (mem_get_model_effects env cache r.task e
                      (by rw [hg]; exact h1))
                  · rcases mem_runGenerate_effects env w m cfg r img _ _ _ _ e
                        (by rw [hR]; exact h2) with ⟨c, hc, _⟩
                    exact Or.inr (Or.inl ⟨c, hc⟩)

theorem generate_video_response_ok (env : Env) (w : World) (cache : Cache)
    (r : Req) (resp : Resp)
    (h : (generateBody env w cache r).result = Except.ok resp) :
    (generate_video env w cache r).response = resp := by
  unfold generate_video
  split <;> simp_all

/-- C7: every successful `POST /generate` serves a `FileResponse` whose path
is `OUTPUT_DIR/{uuid4}.mp4`, with media type `video/mp4`, and that exact
path was written by `save_video`; and the handler never deletes any file
(no cleanup effect ever appears in the trace). -/
theorem generate_file_contract (env : Env) (w : World) (cache : Cache) (r : Req) :
    (∀ path mt fname,
        (generate_video env w cache r).response = Resp.fileResponse path mt fname →
          path = env.outputDir ++ "/" ++ w.freshUuid ++ ".mp4"
          ∧ mt = "video/mp4"
          ∧ fname = "wan_video_" ++ w.freshUuid ++ ".mp4"
          ∧ Effect.write path ∈ (generate_video env w cache r).effects)
    ∧ ∀ p, Effect.delete p ∉ (generate_video env w cache r).effects := by
  constructor
  · intro path mt fname hresp
    rcases generateBody_outcome env w cache r with ⟨e, he⟩ | ⟨hok, hw⟩
    · rw [generate_video_error env w cache r e he] at hresp
      cases hresp
    · rw [generate_video_response_ok env w cache r _ hok] at hresp
      rcases hresp with ⟨⟩
      exact ⟨rfl, rfl, rfl, by rw [generate_video_effects_eq]; exact hw⟩
  · intro p hp
    rw [generate_video_effects_eq] at hp
    rcases mem_generateBody_effects env w cache r _ hp with h | ⟨c, h⟩ | h <;>
      cases h

/-- Witness for C7: the fully successful concrete request. -/
theorem generate_file_contract_witness :
    "/tmp/outputs/a1b2c3d4.mp4" = envEx.outputDir ++ "/" ++ worldEx.freshUuid ++ ".mp4"
    ∧ "video/mp4" = "video/mp4"
    ∧ "wan_video_a1b2c3d4.mp4" = "wan_video_" ++ worldEx.freshUuid ++ ".mp4"
    ∧ Effect.write "/tmp/outputs/a1b2c3d4.mp4"
        ∈ (generate_video envEx worldEx [] reqEx).effects :=
  (generate_file_contract envEx worldEx [] reqEx).1
    "/tmp/outputs/a1b2c3d4.mp4" "video/mp4" "wan_video_a1b2c3d4.mp4" (by rfl)

/-- C8: for a valid task, every `generate()` call issued by the handler uses
`sample_steps`, `guide_scale` and `frame_num` resolved with `Option.getD`
against that task's config entry: a supplied form value is passed unchanged,
an omitted one falls back to `cfg.sample_steps` / `cfg.sample_guide_scale` /
`cfg.frame_num`. -/
theorem generate_defaults_resolution (env : Env) (w : World) (cache : Cache)
    (r : Req) (cfg : WanCfg) (c : GenCall)
    (hcfg : List.lookup r.task env.wanConfigs = some cfg)
    (h : Effect.genCall c ∈ (generateBody env w cache r).effects) :
    c.sampling_steps = r.sample_steps.getD cfg.sample_steps
    ∧ c.guide_scale = r.guide_scale.getD cfg.sample_guide_scale
    ∧ c.frame_num = r.frame_num.getD cfg.frame_num := by
  unfold generateBody at h
  rw [hcfg] at h
  dsimp only at h
  by_cases hsz : (List.lookup r.size env.sizeConfigs).isNone = true
  · rw [if_pos hsz] at h
    cases h
  · rw [if_neg hsz] at h
    cases hI : resolveImg w r with
    | error msg =>
      rw [hI] at h
      cases h
    | ok img =>
      rw [hI] at h
      cases hg : get_model env cache r.task with
      | mk cache1 effs1 res =>
        rw [hg] at h
        cases res with
        | error msg =>
          dsimp only at h
          have := mem_get_model_effects env cache r.task _ (by rw [hg]; exact h)
          cases this
        | ok m =>
          dsimp only at h
          cases hR : runGenerate env w m cfg r img
              (r.frame_num.getD cfg.frame_num)
              (r.sample_steps.getD cfg.sample_steps)
              (r.guide_scale.getD cfg.sample_guide_scale)
              (if r.seed < 0 then Int.ofNat w.randomSeed else r.seed) with
          | mk effs2 res2 =>
            rw [hR] at h
            have hgen : Effect.genCall c ∈ effs2 →
                c.sampling_steps = r.sample_steps.getD cfg.sample_steps
                ∧ c.guide_scale = r.guide_scale.getD cfg.sample_guide_scale
                ∧ c.frame_num = r.frame_num.getD cfg.frame_num := by
              intro h2
              rcases mem_runGenerate_effects env w m cfg r img _ _ _ _ _
                  (by rw [hR]; exact h2) with ⟨c2, hc2, h1, h2g, h3, _⟩
              cases hc2
              exact ⟨h1, h2g, h3⟩
            cases res2 with
            | error e2 =>
              dsimp only at h
              rcases List.mem_append.mp h with h1 | h2
              · have := mem_get_model_effects env cache r.task _ (by rw [hg]; exact h1)
                cases this
              · exact hgen h2
            | ok v =>
              rcases saveAndRespond_spec env w with hS | ⟨msg, hS⟩ <;> rw [hS] at h <;>
                dsimp only at h
              · rcases List.mem_append.mp h with h12 | h3
                · rcases List.mem_append.mp h12 with h1 | h2
                  · have := mem_get_model_effects env cache r.task _ (by rw [hg]; exact h1)
                    cases this
                  · exact hgen h2
                · simp at h3
              · rw [List.append_nil] at h
                rcases List.mem_append.mp h with h1 | h2
                · have := mem_get_model_effects env cache r.task _ (by rw [hg]; exact h1)
                  cases this
                · exact hgen h2

/-- Witness for C8: a request supplying `sample_steps = 7` and
`frame_num = 33` while omitting `guide_scale` produces a `generate()` call
with steps 7, frames 33, and the config's guidance scale 5. -/
theorem generate_defaults_resolution_witness :
    cCustom.sampling_steps = reqCustom.sample_steps.getD cfgTi2v.sample_steps
    ∧ cCustom.guide_scale = reqCustom.guide_scale.getD cfgTi2v.sample_guide_scale
    ∧ cCustom.frame_num = reqCustom.frame_num.getD cfgTi2v.frame_num :=
  generate_defaults_resolution envEx worldEx [] reqCustom cfgTi2v cCustom
    (by rfl) (by decide)

/-- C10: for a ti2v task, the image is optional: with no image uploaded and
the task, size and model resolution succeeding, the handler still issues the
library `generate()` call, with `img = None`; and the request is never
rejected with an `HTTPException` (in particular not with the i2v-only
"Image is required" validation error, which applies only to i2v tasks). -/
theorem ti2v_image_optional (env : Env) (w : World) (cache : Cache) (r : Req)
    (cfg : WanCfg) (m : Nat) (sz : Nat × Nat) (ma : Nat)
    (hcfg : List.lookup r.task env.wanConfigs = some cfg)
    (hsz : List.lookup r.size env.sizeConfigs = some sz)
    (hma : List.lookup r.size env.maxAreaConfigs = some ma)
    (hk : taskKind r.task = some ModelKind.ti2v)
    (himg : r.image = none)
    (hm : (get_model env cache r.task).result = Except.ok m) :
    Effect.genCall
        { model := m, prompt := r.prompt, img := none, size := some sz,
          max_area := some ma, frame_num := r.frame_num.getD cfg.frame_num,
          shift := cfg.sample_shift, sample_solver := "unipc",
          sampling_steps := r.sample_steps.getD cfg.sample_steps,
          guide_scale := r.guide_scale.getD cfg.sample_guide_scale,
          seed := if r.seed < 0 then Int.ofNat w.randomSeed else r.seed,
          offload_model := true }
      ∈ (generateBody env w cache r).effects
    ∧ ∀ s d, (generateBody env w cache r).result ≠ Except.error (PyExc.http s d) := by
  have hrg := runGenerate_ti2v_call env w m cfg r none
    (r.frame_num.getD cfg.frame_num) (r.sample_steps.getD cfg.sample_steps)
    (r.guide_scale.getD cfg.sample_guide_scale)
    (if r.seed < 0 then Int.ofNat w.randomSeed else r.seed) sz ma hk hsz hma
  unfold generateBody
  rw [hcfg]
  dsimp only
  rw [hsz]
  simp only [Option.isNone_some, Bool.false_eq_true, if_false]
  simp only [resolveImg, himg]
  cases hg : get_model env cache r.task with
  | mk cache1 effs1 res =>
    rw [hg] at hm
    dsimp only at hm
    subst hm
    dsimp only
    cases hR : runGenerate env w m cfg r none
        (r.frame_num.getD cfg.frame_num)
        (r.sample_steps.getD cfg.sample_steps)
        (r.guide_scale.getD cfg.sample_guide_scale)
        (if r.seed < 0 then Int.ofNat w.randomSeed else r.seed) with
    | mk effs2 res2 =>
      rw [hR] at hrg
      dsimp only at hrg
      rcases hrg with ⟨heffs2, hnohttp⟩
      subst heffs2
      cases res2 with
      | error e2 =>
        refine ⟨by simp, ?_⟩
        intro s d hcon
        dsimp only at hcon
        rcases hcon with ⟨⟩
        exact hnohttp s d rfl
      | ok v =>
        rcases saveAndRespond_spec env w with hS | ⟨msg, hS⟩ <;> rw [hS] <;>
          dsimp only
        · exact ⟨by simp, by intro s d hcon; cases hcon⟩
        · refine ⟨by simp, ?_⟩
          intro s d hcon
          rcases hcon with ⟨⟩

/-- Witness for C10: the concrete default ti2v request with no image issues
the `generate()` call with `img = none`. -/
theorem ti2v_image_optional_witness :
    Effect.genCall
        { model := 7, prompt := reqEx.prompt, img := none, size := some (1280, 704),
          max_area := some 901120, frame_num := reqEx.frame_num.getD cfgTi2v.frame_num,
          shift := cfgTi2v.sample_shift, sample_solver := "unipc",
          sampling_steps := reqEx.sample_steps.getD cfgTi2v.sample_steps,
          guide_scale := reqEx.guide_scale.getD cfgTi2v.sample_guide_scale,
          seed := if reqEx.seed < 0 then Int.ofNat worldEx.randomSeed else reqEx.seed,
          offload_model := true }
      ∈ (generateBody envEx worldEx [] reqEx).effects :=
  (ti2v_image_optional envEx worldEx [] reqEx cfgTi2v 7 (1280, 704) 901120
    (by rfl) (by rfl) (by rfl) (by rfl) (by rfl) (by rfl)).1

end Wan22Api
